/-
Verification of the ETL / analytics pipeline
(stock + weather + news-sentiment data, merged into analytical tables).

Shallow embedding of the relevant Python sources:
  * etl/create_ultimate_dataset.py   (namespace UltimateDS)
  * src/etl/create_final_dataset.py  (namespace FinalDS)
  * etl/04_load_to_rds.py            (namespace RdsLoad)
  * Lambda/lambda_function.py        (namespace LambdaFn)

Modelling conventions:
  * pandas floating-point cells that may be NaN are modelled as `Option ℚ`
    (`none` = NaN / missing); cells that are always present are `ℚ`.
  * a dataframe is a `List` of row structures, in row order.
  * `sort_values` is modelled by the stable `List.insertionSort`.
  * date values are modelled as `Nat` ordinal days; calendar-derived
    columns (`year`, `month`, ...) are explicit functions of that ordinal.
  * a rolling/aggregate standard deviation is modelled by the sample
    variance (ddof = 1): the code's extra square root is a deterministic
    map that is NaN exactly when the variance is NaN, so definedness,
    determinism and per-group independence are unaffected.
  * I/O steps that can raise are modelled by `Except String` outcome
    values supplied as explicit "effect" inputs; a Python function that
    catches all exceptions becomes a total Lean function of the outcomes.
-/

import Mathlib

/-! ## Calendar helpers

`pandas` datetime values are modelled as `Nat` ordinal days since
1970-01-01; the `.dt.year/month/quarter/dayofweek/dayofyear` accessors
become explicit functions of the ordinal (civil-calendar conversion). -/

namespace Calendar

/-- Civil date `(year, month, day)` of an ordinal day since 1970-01-01
(standard era-based conversion for the proleptic Gregorian calendar). -/
def civilFromDays (z : Nat) : Nat × Nat × Nat :=
  let z' := z + 719468
  let era := z' / 146097
  let doe := z' % 146097
  let yoe := (doe - doe / 1460 + doe / 36524 - doe / 146096) / 365
  let y := yoe + era * 400
  let doy := doe - (365 * yoe + yoe / 4 - yoe / 100)
  let mp := (5 * doy + 2) / 153
  let d := doy - (153 * mp + 2) / 5 + 1
  let m := if mp < 10 then mp + 3 else mp - 9
  (if m ≤ 2 then y + 1 else y, m, d)

/-- `.dt.year`. -/
def year (z : Nat) : Nat := (civilFromDays z).1

/-- `.dt.month`. -/
def month (z : Nat) : Nat := (civilFromDays z).2.1

/-- `.dt.quarter`. -/
def quarter (z : Nat) : Nat := (month z + 2) / 3

/-- `.dt.dayofweek` (Monday = 0; 1970-01-01 was a Thursday). -/
def dayOfWeek (z : Nat) : Nat := (z + 3) % 7

/-- Inverse of `civilFromDays`: ordinal day of a civil date. -/
def daysFromCivil (y m d : Nat) : Nat :=
  let y' := if m ≤ 2 then y - 1 else y
  let era := y' / 400
  let yoe := y' % 400
  let doy := (153 * (if 2 < m then m - 3 else m + 9) + 2) / 5 + d - 1
  let doe := yoe * 365 + yoe / 4 - yoe / 100 + doy
  era * 146097 + doe - 719468

/-- `.dt.dayofyear`: days elapsed since January 1 of the same year, plus 1. -/
def dayOfYear (z : Nat) : Nat := z - daysFromCivil (year z) 1 1 + 1

end Calendar

/-! ## `etl/04_load_to_rds.py` -/

namespace RdsLoad

/-- Per-character action of the three single-character replaces
`.replace(' ', '_').replace('-', '_').replace('.', '_')` applied by
`clean_dataframe_for_upload` to each column name (each replace acts
independently on single characters, and `'_'` is not itself replaced). -/
def replaceSpecial (c : Char) : Char :=
  if c = ' ' then '_' else if c = '-' then '_' else if c = '.' then '_' else c

/-- Column-name normalization from `clean_dataframe_for_upload`
(line 107): `col.lower().replace(' ', '_').replace('-', '_').replace('.', '_')`.
Lower-casing is per character, so the whole map is per character. -/
def clean_column_name (s : String) : String :=
  String.mk (s.data.map (fun c => replaceSpecial (Char.toLower c)))

/-- The dtype of a dataframe column, as inspected by `create_table_schema`
via `str(df[col].dtype)`.  An `object` column carries its cell values as
rendered by `.astype(str)` (so a missing cell appears as `"nan"`). -/
inductive ColDtype where
  | datetimeCol : ColDtype
  | intCol : ColDtype
  | floatCol : ColDtype
  | boolCol : ColDtype
  | objectCol (values : List String) : ColDtype
deriving DecidableEq, Repr

/-- `df[col].astype(str).str.len().max()`: `none` models the NaN returned
by `.max()` on an empty column. -/
def maxStrLen (values : List String) : Option Nat :=
  match values with
  | [] => none
  | v :: vs => some ((vs.map String.length).foldl max v.length)

/-- The PostgreSQL type chosen for one column by `create_table_schema`
(lines 127-151). -/
def pgTypeOf (d : ColDtype) : String :=
  match d with
  | .datetimeCol => "TIMESTAMP"
  | .intCol => "BIGINT"
  | .floatCol => "DOUBLE PRECISION"
  | .boolCol => "BOOLEAN"
  | .objectCol values =>
    match maxStrLen values with
    | none => "TEXT"
    | some maxLen =>
      if maxLen = 0 then "TEXT"
      else if maxLen ≤ 50 then "VARCHAR(100)"
      else if maxLen ≤ 255 then "VARCHAR(500)"
      else "TEXT"

/-- Python's `s.rstrip(',\n')`: remove every trailing character that is a
comma or a newline. -/
def rstripCommaNewline (s : String) : String :=
  String.mk ((s.data.reverse.dropWhile (fun c => c = ',' || c = '\n')).reverse)

/-- The `CREATE TABLE` statement built by `create_table_schema`
(lines 125-168): each column contributes `"    name type,\n"`, the final
comma is stripped, and index statements are appended for the common query
columns when present. -/
def create_table_schema (table_name : String) (cols : List (String × ColDtype)) : String :=
  let header := "CREATE TABLE IF NOT EXISTS " ++ table_name ++ " (\n"
  let body := cols.foldl (fun acc col => acc ++ "    " ++ col.1 ++ " " ++ pgTypeOf col.2 ++ ",\n") header
  let schema := rstripCommaNewline body ++ "\n);"
  let schema := if (cols.map Prod.fst).contains "date" then
    schema ++ "\nCREATE INDEX IF NOT EXISTS idx_" ++ table_name ++ "_date ON " ++ table_name ++ "(date);"
    else schema
  let schema := if (cols.map Prod.fst).contains "sector" then
    schema ++ "\nCREATE INDEX IF NOT EXISTS idx_" ++ table_name ++ "_sector ON " ++ table_name ++ "(sector);"
    else schema
  if (cols.map Prod.fst).contains "industry" then
    schema ++ "\nCREATE INDEX IF NOT EXISTS idx_" ++ table_name ++ "_industry ON " ++ table_name ++ "(industry);"
    else schema

/-- One dataframe cell.  `null` models NaN/None/NaT; `inf`/`ninf` model the
two float infinities; `date` models an already-parsed datetime value
(CSV date strings that `pd.to_datetime(errors='coerce')` cannot parse are
modelled as coercing to `null`). -/
inductive Cell where
  | null : Cell
  | num (q : ℚ) : Cell
  | inf : Cell
  | ninf : Cell
  | date (d : Nat) : Cell
  | text (s : String) : Cell
deriving DecidableEq, Repr

/-- A dataframe: named columns over a list of rows (each row one cell per
column, in column order). -/
structure DataFrame where
  colNames : List String
  rows : List (List Cell)
deriving DecidableEq, Repr

/-- Cell-level action of `clean_dataframe_for_upload` (lines 95-114):
date columns are coerced with `pd.to_datetime(errors='coerce')` (parsed
dates kept, everything unparseable becomes NaT = `null`), `±inf` in
numeric cells becomes `None`, and the string `'nan'` produced by
`astype(str)` on a missing object cell is mapped back to `None`. -/
def cleanCell (isDateCol : Bool) (c : Cell) : Cell :=
  if isDateCol then
    match c with
    | .date d => .date d
    | _ => .null
  else
    match c with
    | .inf => .null
    | .ninf => .null
    | .text s => if s = "nan" then .null else .text s
    | c => c

/-- `clean_dataframe_for_upload` (lines 88-120): coerce date columns,
null out infinities and `'nan'` strings, normalize the column names, and
drop rows whose cells are all null (`dropna(how='all')`). -/
def clean_dataframe_for_upload (df : DataFrame) : DataFrame :=
  let dateCols := ["date", "trade_date", "Date"]
  let cleanedRows := df.rows.map (fun r =>
    (df.colNames.zip r).map (fun nc => cleanCell (dateCols.contains nc.1) nc.2))
  { colNames := df.colNames.map clean_column_name
    rows := cleanedRows.filter (fun r => !(r.all (· = Cell.null))) }

/-- Outcomes of the fallible steps inside `upload_dataframe_to_rds`.
`drop_table_if_exists` catches its own exceptions (it only logs a
warning), so it cannot influence the result and carries no outcome. -/
structure UploadFx where
  /-- Outcome of `df_clean.to_sql(...)`; an exception carries its message. -/
  toSql : Except String Unit
  /-- Outcome of the `SELECT COUNT(*)` verification query. -/
  verify : Except String Nat

/-- `upload_dataframe_to_rds` (lines 174-217): clean, bail out with
`False` on an empty cleaned frame, then upload and verify inside a
catch-all `try/except` that turns any exception into `False`. -/
def upload_dataframe_to_rds (df : DataFrame) (fx : UploadFx) : Bool :=
  let df_clean := clean_dataframe_for_upload df
  if df_clean.rows.length = 0 then false
  else
    match fx.toSql with
    | .error _ => false
    | .ok _ =>
      match fx.verify with
      | .error _ => false
      | .ok _ => true

/-- `FILE_TABLE_MAPPING` (lines 35-42). -/
def FILE_TABLE_MAPPING : List (String × String) :=
  [("Data/final/sector_daily_analysis.csv", "sector_daily_analysis"),
   ("Data/final/industry_daily_analysis.csv", "industry_daily_analysis"),
   ("Data/final/sector_summary_statistics.csv", "sector_summary_statistics"),
   ("Data/final/industry_summary_statistics.csv", "industry_summary_statistics"),
   ("Data/final/correlation_statistics_full.csv", "correlation_statistics"),
   ("Data/final/merged_time_series_data.csv", "merged_time_series_data")]

/-- Environment of one file in the `upload_all_files` loop: whether the
file exists, the outcome of `pd.read_csv`, and the upload outcomes. -/
structure FileFx where
  fileExists : Bool
  readCsv : Except String DataFrame
  upload : UploadFx

/-- Body of the `upload_all_files` loop (lines 233-257) for a single
file: a missing file or any exception records `False` for the table. -/
def processFile (fx : FileFx) : Bool :=
  if !fx.fileExists then false
  else
    match fx.readCsv with
    | .error _ => false
    | .ok df => upload_dataframe_to_rds df fx.upload

/-- `upload_all_files` (lines 219-278): walk the whole mapping, recording
a per-table boolean; a failure never aborts the loop. -/
def upload_all_files (env : String → FileFx) : List (String × Bool) :=
  FILE_TABLE_MAPPING.map (fun ft => (ft.2, processFile (env ft.1)))

end RdsLoad

/-! ## `Lambda/lambda_function.py` -/

namespace LambdaFn

/-- An object written to the bucket by `s3.put_object`. -/
structure S3Object where
  key : String
  body : String
  contentType : String
deriving DecidableEq, Repr

/-- Outcomes of the four fallible steps of `lambda_handler`: the two
`fetch_json` HTTP GETs and the two `s3.put_object` writes.  The fetched
payloads are carried as their serialized JSON text. -/
structure LambdaFx where
  weatherFetch : Except String String
  stockFetch : Except String String
  putWeather : Except String Unit
  putStock : Except String Unit

/-- The JSON body of the returned dict. -/
inductive RespBody where
  | success (message date : String)
  | failure (message error : String)
deriving DecidableEq, Repr

/-- The dict returned by `lambda_handler`. -/
structure Response where
  statusCode : Nat
  body : RespBody
deriving DecidableEq, Repr

/-- `lambda_handler` (lines 20-74): fetch weather and S&P 500 JSON, store
both under date-named keys, return 200; any exception short-circuits into
a 500 response carrying `str(e)`.  The second component is the list of
objects actually stored (a failing write stores nothing itself, but
writes already made persist). -/
def lambda_handler (date_str : String) (fx : LambdaFx) : Response × List S3Object :=
  match fx.weatherFetch with
  | .error e => (⟨500, .failure "Error in Lambda" e⟩, [])
  | .ok weather_json =>
    match fx.stockFetch with
    | .error e => (⟨500, .failure "Error in Lambda" e⟩, [])
    | .ok stock_json =>
      let wobj : S3Object :=
        ⟨"raw/weather/weather_" ++ date_str ++ ".json", weather_json, "application/json"⟩
      let sobj : S3Object :=
        ⟨"raw/sp500/sp500_" ++ date_str ++ ".json", stock_json, "application/json"⟩
      match fx.putWeather with
      | .error e => (⟨500, .failure "Error in Lambda" e⟩, [])
      | .ok _ =>
        match fx.putStock with
        | .error e => (⟨500, .failure "Error in Lambda" e⟩, [wobj])
        | .ok _ =>
          (⟨200, .success "Weather and stock data stored successfully" date_str⟩, [wobj, sobj])

end LambdaFn

/-! ## `etl/create_ultimate_dataset.py` -/

namespace UltimateDS

/-- One row of `stock_data_wiki.csv` after the `pd.to_datetime` date
conversion.  Price fields are plain `ℚ`; the company-description fields
may be missing (they drive the `dropna`). -/
structure StockRow where
  ticker : String
  date : Nat
  open_ : ℚ
  high : ℚ
  low : ℚ
  close : ℚ
  volume : ℚ
  sector : Option String
  industry : Option String
  company_name : Option String
deriving DecidableEq, Repr

/-- `dropna(subset=['sector', 'industry', 'company_name'])` (line 37). -/
def dropnaEssential (data : List StockRow) : List StockRow :=
  data.filter (fun r => r.sector.isSome && r.industry.isSome && r.company_name.isSome)

/-- Tail of `Series.pct_change` given the previous value: each element is
`(c - prev) / prev`; a zero previous value yields a non-finite float,
modelled as `none`. -/
def pctChangeAux (prev : ℚ) : List ℚ → List (Option ℚ)
  | [] => []
  | c :: rest => (if prev = 0 then none else some ((c - prev) / prev)) :: pctChangeAux c rest

/-- `Series.pct_change` of one `groupby('ticker')` group (line 45): NaN on
the group's first element, then the relative change. -/
def pctChange : List ℚ → List (Option ℚ)
  | [] => []
  | c :: rest => none :: pctChangeAux c rest

/-- Sample variance with `ddof = 1` (the square of the pandas sample
standard deviation); meaningful for two or more observations. -/
def sampleVar (l : List ℚ) : ℚ :=
  let n : ℚ := l.length
  let m := l.sum / n
  ((l.map (fun x => (x - m) ^ 2)).sum) / (n - 1)

/-- `Series.rolling(window=7, min_periods=1).std()` (lines 51-53), with
the standard deviation modelled by the sample variance (the square root
on top is deterministic and NaN-preserving).  Entry `i` looks at the last
at-most-7 entries ending at `i`; NaN entries inside the window are
skipped; with fewer than two remaining observations the sample standard
deviation is NaN (`min_periods=1` admits a single observation, whose
`ddof = 1` standard deviation is still NaN). -/
def rollingStd7 (rets : List (Option ℚ)) : List (Option ℚ) :=
  (List.range rets.length).map (fun i =>
    let window := (rets.take (i + 1)).drop (i + 1 - 7)
    let vals := window.filterMap id
    if 2 ≤ vals.length then some (sampleVar vals) else none)

/-- The string order, stated on the underlying character list (the
lexicographic order on code points, as for Python strings; equivalent to
`String.le` by `String.le_iff_toList_le`, and kernel-computable). -/
def strLe (a b : String) : Prop := a.data ≤ b.data

instance : DecidableRel strLe := fun a b => by unfold strLe; infer_instance

/-- Ascending distinct tickers: `sort_values(['ticker', 'date'])` (line
40) lays the `groupby('ticker')` groups out in ascending ticker order. -/
def tickersOf (data : List StockRow) : List String :=
  List.insertionSort strLe (data.map (fun r => r.ticker)).dedup

/-- The rows one `groupby('ticker')` group works on: after
`sort_values(['ticker', 'date'])` the block of ticker `t` is exactly
`t`'s rows stably sorted by date (the ticker component is constant inside
the block, and the sort is stable). -/
def tickerGroup (data : List StockRow) (t : String) : List StockRow :=
  List.insertionSort (fun a b => a.date ≤ b.date) (data.filter (fun r => r.ticker = t))

/-- A stock row with the derived metric columns of
`prepare_stock_data_with_metrics`.  `daily_return` and `volatility_7` are
renamed to `Return` / `Volatility_7` by line 59's `rename`, which only
changes the column label. -/
structure MetricRow where
  ticker : String
  date : Nat
  open_ : ℚ
  high : ℚ
  low : ℚ
  close : ℚ
  volume : ℚ
  sector : Option String
  industry : Option String
  company_name : Option String
  daily_return : Option ℚ
  price_range : ℚ
  price_change : ℚ
  price_change_pct : ℚ
  volatility_7 : Option ℚ
  num_stocks : Nat
deriving DecidableEq, Repr

/-- The metric rows of one ticker group: `daily_return` via `pct_change`,
`volatility_7` via the 7-day rolling std of the returns, the price
columns by direct arithmetic (lines 45-56).  `num_stocks` counts the rows
of the whole table sharing the row's date (`groupby('date')` transform). -/
def metricsFor (data : List StockRow) (g : List StockRow) : List MetricRow :=
  let rets := pctChange (g.map (fun r => r.close))
  let vols := rollingStd7 rets
  (g.zip (rets.zip vols)).map (fun rv =>
    let r := rv.1
    { ticker := r.ticker
      date := r.date
      open_ := r.open_
      high := r.high
      low := r.low
      close := r.close
      volume := r.volume
      sector := r.sector
      industry := r.industry
      company_name := r.company_name
      daily_return := rv.2.1
      price_range := r.high - r.low
      price_change := r.close - r.open_
      price_change_pct := (r.close - r.open_) / r.open_ * 100
      volatility_7 := rv.2.2
      num_stocks := (data.filter (fun s => s.date = r.date)).length })

/-- `prepare_stock_data_with_metrics` (lines 29-66): drop rows with
missing essential information, sort by `(ticker, date)`, and compute the
per-ticker metric columns group by group. -/
def prepare_stock_data_with_metrics (stock_data : List StockRow) : List MetricRow :=
  let data := dropnaEssential stock_data
  (tickersOf data).flatMap (fun t => metricsFor data (tickerGroup data t))

/-- One row of the prepared analysis table (output of
`prepare_analysis_data`, the second argument of `create_ultimate_dataset`):
daily market-index values and external-factor scores.  `Close_GSPC`
stands for the column `Close_^GSPC`. -/
structure AnalysisRow where
  date : Nat
  Close_GSPC : Option ℚ
  sp500_return : Option ℚ
  sp500_volatility_7d : Option ℚ
  avg_national_rainfall : Option ℚ
  depression_index : Option ℚ
  depression_word_count : Option ℚ
  total_articles : Option ℚ
  avg_depression_per_article : Option ℚ
  depression_index_category : Option String
deriving DecidableEq, Repr

/-- `pd.merge(left, right, on='date', how='inner')`: each left row, in
order, paired with every right row of equal date, in order. -/
def innerJoinOnDate {α β : Type} (dL : α → Nat) (dR : β → Nat)
    (left : List α) (right : List β) : List (α × β) :=
  left.flatMap (fun l => (right.filter (fun r => dR r = dL l)).map (fun r => (l, r)))

/-- One row of the ultimate dataset: the `target_columns` of lines
124-131 (all present for fully-populated inputs) plus the calendar
columns of lines 146-149. -/
structure UltimateRow where
  date : Nat
  ticker : String
  company_name : Option String
  sector : Option String
  industry : Option String
  open_ : ℚ
  high : ℚ
  low : ℚ
  close : ℚ
  volume : ℚ
  num_stocks : Nat
  Close_GSPC : Option ℚ
  Return : Option ℚ
  Volatility_7 : Option ℚ
  depression_word_count : Option ℚ
  total_articles : Option ℚ
  depression_index : Option ℚ
  avg_national_rainfall : Option ℚ
  price_range : ℚ
  price_change_pct : ℚ
  depression_index_category : Option String
  year : Nat
  month : Nat
  quarter : Nat
  day_of_week : Nat
deriving DecidableEq, Repr

/-- Projection of a merged pair onto an ultimate row, including the
calendar columns (the code projects before sorting and derives the
calendar columns after; both steps are per-row and key-preserving, so
they commute with the sort). -/
def toUltimateRow (p : MetricRow × AnalysisRow) : UltimateRow :=
  { date := p.1.date
    ticker := p.1.ticker
    company_name := p.1.company_name
    sector := p.1.sector
    industry := p.1.industry
    open_ := p.1.open_
    high := p.1.high
    low := p.1.low
    close := p.1.close
    volume := p.1.volume
    num_stocks := p.1.num_stocks
    Close_GSPC := p.2.Close_GSPC
    Return := p.1.daily_return
    Volatility_7 := p.1.volatility_7
    depression_word_count := p.2.depression_word_count
    total_articles := p.2.total_articles
    depression_index := p.2.depression_index
    avg_national_rainfall := p.2.avg_national_rainfall
    price_range := p.1.price_range
    price_change_pct := p.1.price_change_pct
    depression_index_category := p.2.depression_index_category
    year := Calendar.year p.1.date
    month := Calendar.month p.1.date
    quarter := Calendar.quarter p.1.date
    day_of_week := Calendar.dayOfWeek p.1.date }

/-- `create_ultimate_dataset` (lines 109-157): inner-join the prepared
stock table with the prepared analysis table on `date`, select the target
columns, sort by `(date, ticker)`, and add the calendar columns. -/
def create_ultimate_dataset (stock_data : List MetricRow)
    (analysis_data : List AnalysisRow) : List UltimateRow :=
  let merged := innerJoinOnDate (fun r => r.date) (fun a => a.date) stock_data analysis_data
  let sorted := List.insertionSort
    (fun p q : MetricRow × AnalysisRow =>
      p.1.date < q.1.date ∨ (p.1.date = q.1.date ∧ strLe p.1.ticker q.1.ticker)) merged
  sorted.map toUltimateRow

end UltimateDS

/-! ## `src/etl/create_final_dataset.py` -/

namespace FinalDS

open UltimateDS (StockRow pctChange tickersOf tickerGroup sampleVar innerJoinOnDate)

/-- One row of `merged_analysis_data.csv` (the columns selected by
`prepare_analysis_data`, lines 86-90). -/
structure AnalysisRawRow where
  date : Nat
  sp500_close : Option ℚ
  sp500_return : Option ℚ
  sp500_volatility_7d : Option ℚ
  avg_rainfall : Option ℚ
  depression_index : Option ℚ
  depression_word_count : Option ℚ
  total_articles : Option ℚ
  avg_depression_per_article : Option ℚ
deriving DecidableEq, Repr

/-- Recursion of `prepare_analysis_data`'s fills, threading the last seen
`depression_index` for the forward fill. -/
def prepare_analysis_data_aux (prev : Option ℚ) : List AnalysisRawRow → List AnalysisRawRow
  | [] => []
  | r :: rest =>
    let di := match r.depression_index with
      | some q => some q
      | none => prev
    { r with
      depression_index := di
      depression_word_count := some (r.depression_word_count.getD 0)
      total_articles := some (r.total_articles.getD 0)
      avg_depression_per_article := some (r.avg_depression_per_article.getD 0) } ::
      prepare_analysis_data_aux di rest

/-- `prepare_analysis_data` (lines 78-100): select the analysis columns,
forward-fill `depression_index`, and zero-fill the three count columns. -/
def prepare_analysis_data (analysis_data : List AnalysisRawRow) : List AnalysisRawRow :=
  prepare_analysis_data_aux none analysis_data

/-- A stock row with the per-ticker derived columns of lines 41-44. -/
structure ReturnRow where
  ticker : String
  date : Nat
  open_ : ℚ
  high : ℚ
  low : ℚ
  close : ℚ
  volume : ℚ
  sector : Option String
  industry : Option String
  daily_return : Option ℚ
  price_range : ℚ
  price_change : ℚ
  price_change_pct : ℚ
deriving DecidableEq, Repr

/-- `dropna(subset=['sector', 'industry'])` (line 37). -/
def dropnaSectorIndustry (data : List StockRow) : List StockRow :=
  data.filter (fun r => r.sector.isSome && r.industry.isSome)

/-- Lines 40-44: sort by `(ticker, date)`, then compute `daily_return`
per ticker group and the price columns per row. -/
def stockWithReturns (stock_data : List StockRow) : List ReturnRow :=
  let data := dropnaSectorIndustry stock_data
  (tickersOf data).flatMap (fun t =>
    let g := tickerGroup data t
    let rets := pctChange (g.map (fun r => r.close))
    (g.zip rets).map (fun rr =>
      let r := rr.1
      { ticker := r.ticker
        date := r.date
        open_ := r.open_
        high := r.high
        low := r.low
        close := r.close
        volume := r.volume
        sector := r.sector
        industry := r.industry
        daily_return := rr.2
        price_range := r.high - r.low
        price_change := r.close - r.open_
        price_change_pct := (r.close - r.open_) / r.open_ * 100 }))

/-- NaN-skipping mean, as pandas `agg('mean')`: `none` when the group
holds no numeric value. -/
def meanOpt (l : List (Option ℚ)) : Option ℚ :=
  let vals := l.filterMap id
  if vals.length = 0 then none else some (vals.sum / vals.length)

/-- Plain mean of a never-NaN column over a (nonempty) group. -/
def meanQ (l : List ℚ) : ℚ := l.sum / l.length

/-- One aggregated row of `sector_daily` / `industry_daily` (the
`groupby(['date', <label>]).agg(...)` of lines 47-74); `key` is the
sector or industry label and `num_stocks` the `'ticker': 'count'`
column (renamed `num_stocks_in_sector` / `num_stocks_in_industry`). -/
structure GroupDailyRow where
  date : Nat
  key : String
  open_ : ℚ
  high : ℚ
  low : ℚ
  close : ℚ
  volume : ℚ
  daily_return : Option ℚ
  price_range : ℚ
  price_change_pct : ℚ
  num_stocks : Nat
deriving DecidableEq, Repr

/-- The distinct `(date, label)` keys in ascending order (pandas sorts
group keys). -/
def groupKeys (rows : List ReturnRow) (key : ReturnRow → String) : List (Nat × String) :=
  List.insertionSort
    (fun a b => a.1 < b.1 ∨ (a.1 = b.1 ∧ UltimateDS.strLe a.2 b.2))
    ((rows.map (fun r => (r.date, key r))).dedup)

/-- `groupby(['date', <label>]).agg(...)` (lines 47-57 / 62-72): means of
the price columns, summed volume, NaN-skipping mean of `daily_return`,
and the member count. -/
def aggregateDaily (rows : List ReturnRow) (key : ReturnRow → String) : List GroupDailyRow :=
  (groupKeys rows key).map (fun k =>
    let g := rows.filter (fun r => r.date = k.1 && key r = k.2)
    { date := k.1
      key := k.2
      open_ := meanQ (g.map (fun r => r.open_))
      high := meanQ (g.map (fun r => r.high))
      low := meanQ (g.map (fun r => r.low))
      close := meanQ (g.map (fun r => r.close))
      volume := (g.map (fun r => r.volume)).sum
      daily_return := meanOpt (g.map (fun r => r.daily_return))
      price_range := meanQ (g.map (fun r => r.price_range))
      price_change_pct := meanQ (g.map (fun r => r.price_change_pct))
      num_stocks := g.length })

/-- `prepare_stock_data` (lines 29-76): derived per-ticker columns, then
the sector-daily and industry-daily aggregations.  After the `dropna` the
labels are present; `getD ""` merely discharges the `Option`. -/
def prepare_stock_data (stock_data : List StockRow) :
    List GroupDailyRow × List GroupDailyRow :=
  let rows := stockWithReturns stock_data
  (aggregateDaily rows (fun r => r.sector.getD ""),
   aggregateDaily rows (fun r => r.industry.getD ""))

/-- `pd.cut(depression_index, bins=[0, 33, 66, 100], labels=['Low',
'Medium', 'High'])` (lines 131-135): half-open bins `(0,33] (33,66]
(66,100]`; values outside every bin (or NaN) become NaN. -/
def cutDepression (v : Option ℚ) : Option String :=
  match v with
  | none => none
  | some q =>
    if 0 < q ∧ q ≤ 33 then some "Low"
    else if 33 < q ∧ q ≤ 66 then some "Medium"
    else if 66 < q ∧ q ≤ 100 then some "High"
    else none

/-- One row of `sector_final` / `industry_final`.  The function body
ends with `df = df.sort_values(...)` followed by an assignment of
`rolling_volatility_7d` (lines 137-142); the rebinding makes that
assignment land on a local copy that is then discarded, so the returned
tables carry every merged and derived column except
`rolling_volatility_7d`. -/
structure FinalRow where
  base : GroupDailyRow
  analysis : AnalysisRawRow
  year : Nat
  month : Nat
  quarter : Nat
  day_of_week : Nat
  day_of_year : Nat
  depression_index_category : Option String
deriving DecidableEq, Repr

/-- The in-place derived columns of lines 123-135. -/
def addDerived (p : GroupDailyRow × AnalysisRawRow) : FinalRow :=
  { base := p.1
    analysis := p.2
    year := Calendar.year p.1.date
    month := Calendar.month p.1.date
    quarter := Calendar.quarter p.1.date
    day_of_week := Calendar.dayOfWeek p.1.date
    day_of_year := Calendar.dayOfYear p.1.date
    depression_index_category := cutDepression p.2.depression_index }

/-- `create_final_datasets` (lines 102-144): inner-join each aggregated
table with the analysis table on `date` and add the derived columns. -/
def create_final_datasets (sector_daily industry_daily : List GroupDailyRow)
    (analysis_data : List AnalysisRawRow) : List FinalRow × List FinalRow :=
  ((innerJoinOnDate (fun g => g.date) (fun a => a.date) sector_daily analysis_data).map addDerived,
   (innerJoinOnDate (fun g => g.date) (fun a => a.date) industry_daily analysis_data).map addDerived)

/-- Round half-to-even at the integer scale, as numpy does. -/
def roundHalfEven (q : ℚ) : ℤ :=
  let f := ⌊q⌋
  let r := q - f
  if r < 1 / 2 then f
  else if 1 / 2 < r then f + 1
  else if f % 2 = 0 then f else f + 1

/-- `.round(4)` on a numeric cell. -/
def round4 (q : ℚ) : ℚ := (roundHalfEven (q * 10000) : ℚ) / 10000

/-- Sample standard deviation of a group, as pandas `agg('std')`:
NaN below two observations (modelled by the sample variance, see the
header note). -/
def stdOpt (l : List ℚ) : Option ℚ :=
  if 2 ≤ l.length then some (sampleVar l) else none

/-- NaN-skipping minimum. -/
def minOpt (l : List (Option ℚ)) : Option ℚ :=
  match l.filterMap id with
  | [] => none
  | v :: vs => some (vs.foldl min v)

/-- NaN-skipping maximum. -/
def maxOpt (l : List (Option ℚ)) : Option ℚ :=
  match l.filterMap id with
  | [] => none
  | v :: vs => some (vs.foldl max v)

/-- One row of the summary-statistics tables (lines 150-161 / 169-180),
after the column-name flattening; `num_stocks_first` stands for
`num_stocks_in_sector_first` / `num_stocks_in_industry_first`. -/
structure StatsRow where
  key : String
  daily_return_mean : Option ℚ
  daily_return_std : Option ℚ
  daily_return_min : Option ℚ
  daily_return_max : Option ℚ
  close_mean : ℚ
  close_min : ℚ
  close_max : ℚ
  volume_mean : ℚ
  price_change_pct_mean : ℚ
  price_change_pct_std : Option ℚ
  depression_index_mean : Option ℚ
  num_stocks_first : Nat
deriving DecidableEq, Repr

/-- `groupby(<label>).agg({...}).round(4)` shared by
`calculate_sector_statistics` and `calculate_industry_statistics`. -/
def statsByKey (rows : List FinalRow) (key : FinalRow → String) : List StatsRow :=
  let keys := List.insertionSort UltimateDS.strLe ((rows.map key).dedup)
  keys.map (fun k =>
    let g := rows.filter (fun r => key r = k)
    let rets := g.map (fun r => r.base.daily_return)
    { key := k
      daily_return_mean := (meanOpt rets).map round4
      daily_return_std := (stdOpt (rets.filterMap id)).map round4
      daily_return_min := (minOpt rets).map round4
      daily_return_max := (maxOpt rets).map round4
      close_mean := round4 (meanQ (g.map (fun r => r.base.close)))
      close_min := round4 ((g.map (fun r => r.base.close)).foldl min ((g.head?.map (fun r => r.base.close)).getD 0))
      close_max := round4 ((g.map (fun r => r.base.close)).foldl max ((g.head?.map (fun r => r.base.close)).getD 0))
      volume_mean := round4 (meanQ (g.map (fun r => r.base.volume)))
      price_change_pct_mean := round4 (meanQ (g.map (fun r => r.base.price_change_pct)))
      price_change_pct_std := (stdOpt (g.map (fun r => r.base.price_change_pct))).map round4
      depression_index_mean := (meanOpt (g.map (fun r => r.analysis.depression_index))).map round4
      num_stocks_first := ((g.head?.map (fun r => r.base.num_stocks)).getD 0) })

/-- `calculate_sector_statistics` (lines 165-182). -/
def calculate_sector_statistics (sector_final : List FinalRow) : List StatsRow :=
  statsByKey sector_final (fun r => r.base.key)

/-- `calculate_industry_statistics` (lines 146-163). -/
def calculate_industry_statistics (industry_final : List FinalRow) : List StatsRow :=
  statsByKey industry_final (fun r => r.base.key)

/-- The aggregation stage of `main` (lines 216-228): prepare both inputs,
build the two joined daily tables, and compute both statistics tables. -/
def aggregationStage (stock_data : List StockRow) (analysis_data : List AnalysisRawRow) :
    (List FinalRow × List FinalRow) × (List StatsRow × List StatsRow) :=
  let daily := prepare_stock_data stock_data
  let analysis_clean := prepare_analysis_data analysis_data
  let finals := create_final_datasets daily.1 daily.2 analysis_clean
  (finals, (calculate_sector_statistics finals.1, calculate_industry_statistics finals.2))

end FinalDS

/-! ## Concrete instances used by individual claims -/

/-- The number of distinct values in a key column (the size of the key
domain of a table). -/
def distinctCount (dates : List Nat) : Nat := dates.dedup.length

/-- A stock-side input of `create_ultimate_dataset` with two tickers on
one shared date. -/
def twoTickerStock : List UltimateDS.MetricRow :=
  [{ ticker := "A", date := 0, open_ := 1, high := 2, low := 1, close := 2, volume := 10
     sector := some "Tech", industry := some "Software", company_name := some "ACo"
     daily_return := none, price_range := 1, price_change := 1, price_change_pct := 100
     volatility_7 := none, num_stocks := 2 },
   { ticker := "B", date := 0, open_ := 3, high := 4, low := 3, close := 4, volume := 20
     sector := some "Tech", industry := some "Hardware", company_name := some "BCo"
     daily_return := none, price_range := 1, price_change := 1, price_change_pct := 100
     volatility_7 := none, num_stocks := 2 }]

/-- An analysis-side input with a single row on the shared date. -/
def oneDayAnalysis : List UltimateDS.AnalysisRow :=
  [{ date := 0, Close_GSPC := some 100, sp500_return := none, sp500_volatility_7d := none
     avg_national_rainfall := some 1, depression_index := some 50
     depression_word_count := some 3, total_articles := some 5
     avg_depression_per_article := some 1, depression_index_category := some "Medium" }]

/-- A stock-side input with a single row (one ticker, one date). -/
def oneTickerStock : List UltimateDS.MetricRow :=
  [{ ticker := "A", date := 0, open_ := 1, high := 2, low := 1, close := 2, volume := 10
     sector := some "Tech", industry := some "Software", company_name := some "ACo"
     daily_return := none, price_range := 1, price_change := 1, price_change_pct := 100
     volatility_7 := none, num_stocks := 1 }]

/-- An analysis-side input holding the same date twice. -/
def dupDateAnalysis : List UltimateDS.AnalysisRow :=
  [{ date := 0, Close_GSPC := some 100, sp500_return := none, sp500_volatility_7d := none
     avg_national_rainfall := some 1, depression_index := some 50
     depression_word_count := some 3, total_articles := some 5
     avg_depression_per_article := some 1, depression_index_category := some "Medium" },
   { date := 0, Close_GSPC := some 101, sp500_return := none, sp500_volatility_7d := none
     avg_national_rainfall := some 2, depression_index := some 51
     depression_word_count := some 4, total_articles := some 6
     avg_depression_per_article := some 1, depression_index_category := some "Medium" }]

/-- The `Volatility_7` column restricted to ticker `t`'s rows of the
prepared stock table, in group order (the output of
`prepare_stock_data_with_metrics` keeps each ticker's block contiguous
and date-sorted). -/
def UltimateDS.volatilityColumn (stock_data : List UltimateDS.StockRow) (t : String) :
    List (Option ℚ) :=
  ((UltimateDS.prepare_stock_data_with_metrics stock_data).filter
    (fun m => m.ticker = t)).map (fun m => m.volatility_7)

/-! ## Theorems -/

/-! ### Character-level facts about the column-name normalization -/

theorem char_toNat_ofNat_small {m : Nat} (hm : m < 55296) : (Char.ofNat m).toNat = m := by
  have hv : m.isValidChar := Or.inl hm
  rw [Char.ofNat, dif_pos hv]
  simp [Char.ofNatAux, Char.toNat, UInt32.toNat, BitVec.toNat_ofNatLt]

theorem toLower_not_upper {d : Char} (hd : ¬(65 ≤ d.toNat ∧ d.toNat ≤ 90)) :
    Char.toLower d = d := by
  simp only [Char.toLower]
  rw [if_neg (by simpa using hd)]

theorem toLower_idem (c : Char) : Char.toLower (Char.toLower c) = Char.toLower c := by
  by_cases h : 65 ≤ c.toNat ∧ c.toNat ≤ 90
  · have h1 : Char.toLower c = Char.ofNat (c.toNat + 32) := by
      simp only [Char.toLower]
      rw [if_pos (by simpa using h)]
    rw [h1]
    apply toLower_not_upper
    rw [char_toNat_ofNat_small (by omega)]
    omega
  · rw [toLower_not_upper h, toLower_not_upper h]

theorem replaceSpecial_fix (c : Char) :
    RdsLoad.replaceSpecial (Char.toLower (RdsLoad.replaceSpecial (Char.toLower c))) =
      RdsLoad.replaceSpecial (Char.toLower c) := by
  unfold RdsLoad.replaceSpecial
  by_cases hsp : Char.toLower c = ' '
  · rw [if_pos hsp]; decide
  · rw [if_neg hsp]
    by_cases hda : Char.toLower c = '-'
    · rw [if_pos hda]; decide
    · rw [if_neg hda]
      by_cases hdo : Char.toLower c = '.'
      · rw [if_pos hdo]; decide
      · rw [if_neg hdo, toLower_idem c, if_neg hsp, if_neg hda, if_neg hdo]

/-- C7: the column-name normalization used before upload (lower-casing,
then replacing each space, dash and dot with an underscore) is a pure,
deterministic function that is idempotent: for every string `x`,
`normalize(normalize(x)) = normalize(x)`. -/
theorem C7_clean_column_name_idempotent (x : String) :
    RdsLoad.clean_column_name (RdsLoad.clean_column_name x) = RdsLoad.clean_column_name x := by
  unfold RdsLoad.clean_column_name
  have hdata : (String.mk (x.data.map (fun c => RdsLoad.replaceSpecial (Char.toLower c)))).data =
      x.data.map (fun c => RdsLoad.replaceSpecial (Char.toLower c)) := rfl
  rw [hdata, List.map_map]
  refine congrArg String.mk (List.map_congr_left ?_)
  intro c _
  exact replaceSpecial_fix c

/-- C3: `create_table_schema` maps every integer-dtype column to the
integer SQL type `BIGINT`, every float-dtype column to the floating SQL
type `DOUBLE PRECISION`, and every object-dtype column whose longest
string value exceeds 255 characters to the unbounded text type `TEXT`. -/
theorem C3_schema_type_mapping :
    RdsLoad.pgTypeOf RdsLoad.ColDtype.intCol = "BIGINT" ∧
    RdsLoad.pgTypeOf RdsLoad.ColDtype.floatCol = "DOUBLE PRECISION" ∧
    ∀ (values : List String) (n : Nat),
      RdsLoad.maxStrLen values = some n → 255 < n →
      RdsLoad.pgTypeOf (RdsLoad.ColDtype.objectCol values) = "TEXT" := by
  refine ⟨rfl, rfl, ?_⟩
  intro values n h hn
  simp only [RdsLoad.pgTypeOf, h]
  rw [if_neg (by omega), if_neg (by omega), if_neg (by omega)]

set_option maxRecDepth 4096 in
theorem C3_schema_type_mapping_witness :
    RdsLoad.pgTypeOf (RdsLoad.ColDtype.objectCol [String.mk (List.replicate 256 'x')]) = "TEXT" :=
  C3_schema_type_mapping.2.2 _ 256 (by rfl) (by omega)

/-- C10: `lambda_handler` never propagates an exception (its status code
is always 200 or 500); it returns status 200 exactly when both HTTP
fetches and both object-store writes succeed, in which case the raw
weather JSON and the raw S&P 500 JSON are stored under date-named keys;
otherwise it returns status 500 with a body containing the error
message. -/
theorem C10_lambda_handler (date_str : String) (fx : LambdaFn.LambdaFx) :
    ((LambdaFn.lambda_handler date_str fx).1.statusCode = 200 ∨
      (LambdaFn.lambda_handler date_str fx).1.statusCode = 500) ∧
    ((LambdaFn.lambda_handler date_str fx).1.statusCode = 200 ↔
      (fx.weatherFetch.isOk ∧ fx.stockFetch.isOk ∧ fx.putWeather.isOk ∧ fx.putStock.isOk)) ∧
    ((LambdaFn.lambda_handler date_str fx).1.statusCode = 200 →
      ∃ w s, fx.weatherFetch = Except.ok w ∧ fx.stockFetch = Except.ok s ∧
        (LambdaFn.lambda_handler date_str fx).2 =
          [⟨"raw/weather/weather_" ++ date_str ++ ".json", w, "application/json"⟩,
           ⟨"raw/sp500/sp500_" ++ date_str ++ ".json", s, "application/json"⟩]) ∧
    ((LambdaFn.lambda_handler date_str fx).1.statusCode ≠ 200 →
      (LambdaFn.lambda_handler date_str fx).1.statusCode = 500 ∧
        ∃ e, (LambdaFn.lambda_handler date_str fx).1.body =
          LambdaFn.RespBody.failure "Error in Lambda" e) := by
  obtain ⟨wf, sf, pw, ps⟩ := fx
  cases wf <;> cases sf <;> cases pw <;> cases ps <;>
    simp [LambdaFn.lambda_handler, Except.isOk, Except.toBool]

theorem C10_lambda_handler_witness :
    (LambdaFn.lambda_handler "2024-01-01"
        ⟨Except.ok "wjson", Except.ok "sjson", Except.ok (), Except.ok ()⟩).1.statusCode = 200 ∧
    (LambdaFn.lambda_handler "2024-01-01"
        ⟨Except.error "boom", Except.ok "sjson", Except.ok (), Except.ok ()⟩).1.statusCode = 500 :=
  ⟨(C10_lambda_handler "2024-01-01" _).2.1.mpr (by constructor <;> simp [Except.isOk, Except.toBool]),
   ((C10_lambda_handler "2024-01-01"
      ⟨Except.error "boom", Except.ok "sjson", Except.ok (), Except.ok ()⟩).2.2.2 (by decide)).1⟩

/-- C9: each upload step is guarded by a catch-all exception handler:
`upload_dataframe_to_rds` is a total function returning `False` when the
cleaned dataframe is empty or any exception occurs, and `True` exactly
when the upload and its verification succeed on a nonempty cleaned
frame; `upload_all_files` records one boolean per mapped table (so a
failure records `False` and the loop proceeds to the remaining files),
and an absent file or a failed CSV read records `False`. -/
theorem C9_upload_error_handling :
    (∀ (df : RdsLoad.DataFrame) (fx : RdsLoad.UploadFx),
        RdsLoad.upload_dataframe_to_rds df fx = true ↔
          ((RdsLoad.clean_dataframe_for_upload df).rows ≠ [] ∧
            fx.toSql.isOk ∧ fx.verify.isOk)) ∧
    (∀ env : String → RdsLoad.FileFx,
        (RdsLoad.upload_all_files env).map Prod.fst =
          RdsLoad.FILE_TABLE_MAPPING.map Prod.snd ∧
        ∀ ft ∈ RdsLoad.FILE_TABLE_MAPPING,
          (ft.2, RdsLoad.processFile (env ft.1)) ∈ RdsLoad.upload_all_files env) ∧
    (∀ fx : RdsLoad.FileFx,
        fx.fileExists = false ∨ fx.readCsv.isOk = false →
          RdsLoad.processFile fx = false) := by
  refine ⟨?_, ?_, ?_⟩
  · intro df fx
    obtain ⟨ts, vr⟩ := fx
    unfold RdsLoad.upload_dataframe_to_rds
    cases ts <;> cases vr <;>
      simp [Except.isOk, Except.toBool, List.length_eq_zero]
  · intro env
    constructor
    · simp [RdsLoad.upload_all_files]
    · intro ft hft
      simp only [RdsLoad.upload_all_files, List.mem_map]
      exact ⟨ft, hft, rfl⟩
  · intro fx h
    obtain ⟨fe, rc, up⟩ := fx
    rcases h with h | h
    · simp only at h
      simp [RdsLoad.processFile, h]
    · simp only at h
      cases rc with
      | error e => simp [RdsLoad.processFile]
      | ok df => simp [Except.isOk, Except.toBool] at h

theorem C9_upload_error_handling_witness :
    RdsLoad.processFile ⟨false, Except.error "missing", ⟨Except.ok (), Except.ok 0⟩⟩ = false ∧
    RdsLoad.upload_dataframe_to_rds ⟨["a"], [[RdsLoad.Cell.num 1]]⟩ ⟨Except.ok (), Except.ok 1⟩ = true :=
  ⟨C9_upload_error_handling.2.2 _ (Or.inl rfl),
   (C9_upload_error_handling.1 _ _).mpr (by refine ⟨by decide, ?_, ?_⟩ <;> decide)⟩

/-- C6: the aggregation stage is a deterministic function of its input
tables: running `prepare_stock_data`, `prepare_analysis_data`,
`create_final_datasets` and the statistics computations on equal inputs
yields identical output tables (the stage is pure: it reads no clock and
no other ambient state). -/
theorem C6_aggregation_deterministic (s1 s2 : List UltimateDS.StockRow)
    (a1 a2 : List FinalDS.AnalysisRawRow) (hs : s1 = s2) (ha : a1 = a2) :
    FinalDS.aggregationStage s1 a1 = FinalDS.aggregationStage s2 a2 := by
  rw [hs, ha]

theorem C6_aggregation_deterministic_witness :
    FinalDS.aggregationStage
        [{ ticker := "A", date := 0, open_ := 1, high := 2, low := 1, close := 2, volume := 5
           sector := some "Tech", industry := some "Software", company_name := some "ACo" }]
        [{ date := 0, sp500_close := some 10, sp500_return := none, sp500_volatility_7d := none
           avg_rainfall := some 1, depression_index := some 40, depression_word_count := none
           total_articles := none, avg_depression_per_article := none }] =
      FinalDS.aggregationStage
        [{ ticker := "A", date := 0, open_ := 1, high := 2, low := 1, close := 2, volume := 5
           sector := some "Tech", industry := some "Software", company_name := some "ACo" }]
        [{ date := 0, sp500_close := some 10, sp500_return := none, sp500_volatility_7d := none
           avg_rainfall := some 1, depression_index := some 40, depression_word_count := none
           total_articles := none, avg_depression_per_article := none }] :=
  C6_aggregation_deterministic _ _ _ _ rfl rfl

/-! ### Join cardinality (C1, C8) -/

theorem innerJoin_mem_dates {α β : Type} (dL : α → Nat) (dR : β → Nat)
    (left : List α) (right : List β) :
    ∀ p ∈ UltimateDS.innerJoinOnDate dL dR left right,
      dL p.1 ∈ left.map dL ∧ dL p.1 ∈ right.map dR := by
  intro p hp
  unfold UltimateDS.innerJoinOnDate at hp
  simp only [List.mem_flatMap, List.mem_map] at hp
  obtain ⟨l, hl, r, hr, rfl⟩ := hp
  rw [List.mem_filter] at hr
  refine ⟨List.mem_map.mpr ⟨l, hl, rfl⟩, ?_⟩
  have : dR r = dL l := by simpa using hr.2
  exact List.mem_map.mpr ⟨r, hr.1, this⟩

theorem distinctCount_le_of_subset {l1 l2 : List Nat} (h : ∀ x ∈ l1, x ∈ l2) :
    distinctCount l1 ≤ distinctCount l2 := by
  unfold distinctCount
  rw [← List.card_toFinset, ← List.card_toFinset]
  exact Finset.card_le_card (fun x hx => List.mem_toFinset.mpr (h x (List.mem_toFinset.mp hx)))

theorem distinctCount_le_min {γ : Type} (out : List γ) (dO : γ → Nat) (L R : List Nat)
    (h : ∀ d ∈ out.map dO, d ∈ L ∧ d ∈ R) :
    distinctCount (out.map dO) ≤ min (distinctCount L) (distinctCount R) :=
  le_min (distinctCount_le_of_subset (fun x hx => (h x hx).1))
    (distinctCount_le_of_subset (fun x hx => (h x hx).2))

/-- C1 counterexample: with two stock rows sharing one date and a single
analysis row on that date, the inner join of `create_ultimate_dataset`
yields 2 rows, exceeding the smaller key domain (1 distinct date): the
claimed row-count bound is false. -/
theorem C1_row_bound_counterexample :
    ¬ ((UltimateDS.create_ultimate_dataset twoTickerStock oneDayAnalysis).length ≤
        min (distinctCount (twoTickerStock.map (fun r => r.date)))
            (distinctCount (oneDayAnalysis.map (fun a => a.date)))) := by
  have h1 : (UltimateDS.create_ultimate_dataset twoTickerStock oneDayAnalysis).length = 2 := by
    decide
  have h2 : distinctCount (twoTickerStock.map (fun r => r.date)) = 1 := by decide
  have h3 : distinctCount (oneDayAnalysis.map (fun a => a.date)) = 1 := by decide
  rw [h1, h2, h3]
  omega

/-- C1 (amended): for the date-keyed inner joins performed by
`create_ultimate_dataset` and `create_final_datasets`, the number of
*distinct date values* in the merged table never exceeds the size of the
smaller of the two key domains.  (The row count itself can exceed that
bound whenever one table holds several rows per date, as the
counterexample shows.) -/
theorem C1_distinct_date_bound
    (stock : List UltimateDS.MetricRow) (analysis : List UltimateDS.AnalysisRow)
    (sector_daily industry_daily : List FinalDS.GroupDailyRow)
    (analysis2 : List FinalDS.AnalysisRawRow) :
    distinctCount ((UltimateDS.create_ultimate_dataset stock analysis).map (fun r => r.date)) ≤
      min (distinctCount (stock.map (fun r => r.date)))
        (distinctCount (analysis.map (fun a => a.date))) ∧
    distinctCount (((FinalDS.create_final_datasets sector_daily industry_daily analysis2).1).map
        (fun r => r.base.date)) ≤
      min (distinctCount (sector_daily.map (fun g => g.date)))
        (distinctCount (analysis2.map (fun a => a.date))) ∧
    distinctCount (((FinalDS.create_final_datasets sector_daily industry_daily analysis2).2).map
        (fun r => r.base.date)) ≤
      min (distinctCount (industry_daily.map (fun g => g.date)))
        (distinctCount (analysis2.map (fun a => a.date))) := by
  refine ⟨?_, ?_, ?_⟩
  · apply distinctCount_le_min
    intro d hd
    simp only [UltimateDS.create_ultimate_dataset, List.map_map, List.mem_map] at hd
    obtain ⟨p, hp, rfl⟩ := hd
    have hmem : p ∈ UltimateDS.innerJoinOnDate (fun r => r.date) (fun a => a.date)
        stock analysis := (List.Perm.mem_iff (List.perm_insertionSort _ _)).mp hp
    exact innerJoin_mem_dates _ _ _ _ p hmem
  · apply distinctCount_le_min
    intro d hd
    simp only [FinalDS.create_final_datasets, List.map_map, List.mem_map] at hd
    obtain ⟨p, hp, rfl⟩ := hd
    exact innerJoin_mem_dates _ _ _ _ p hp
  · apply distinctCount_le_min
    intro d hd
    simp only [FinalDS.create_final_datasets, List.map_map, List.mem_map] at hd
    obtain ⟨p, hp, rfl⟩ := hd
    exact innerJoin_mem_dates _ _ _ _ p hp

/-- C8 counterexample: one stock row (so at most one row per
`(date, ticker)`), but an analysis table carrying the same date twice;
the join then emits the `(date, ticker)` pair twice, so the output is
not keyed by `(date, ticker)` as claimed. -/
theorem C8_keyed_counterexample :
    ¬ ((oneTickerStock.map (fun r => (r.date, r.ticker))).Nodup →
        ((UltimateDS.create_ultimate_dataset oneTickerStock dupDateAnalysis).map
          (fun r => (r.date, r.ticker))).Nodup) := by decide

theorem filter_date_length_le_one {analysis : List UltimateDS.AnalysisRow}
    (ha : (analysis.map (fun a => a.date)).Nodup) (d : Nat) :
    (analysis.filter (fun a => a.date = d)).length ≤ 1 := by
  induction analysis with
  | nil => simp
  | cons a rest ih =>
    simp only [List.map_cons, List.nodup_cons] at ha
    by_cases h : a.date = d
    · rw [List.filter_cons_of_pos (by simpa using h)]
      have hnil : rest.filter (fun a => a.date = d) = [] := by
        rw [List.filter_eq_nil_iff]
        intro x hx hxd
        apply ha.1
        refine List.mem_map.mpr ⟨x, hx, ?_⟩
        have : x.date = d := by simpa using hxd
        rw [this, h]
      rw [hnil]
      simp
    · rw [List.filter_cons_of_neg (by simpa using h)]
      exact ih ha.2

theorem nodup_const_map {α β : Type} (l : List α) (c : β) (h : l.length ≤ 1) :
    (l.map (fun _ => c)).Nodup := by
  match l with
  | [] => simp
  | [x] => simp
  | x :: y :: rest => simp at h

theorem innerJoin_key_nodup (stock : List UltimateDS.MetricRow)
    (analysis : List UltimateDS.AnalysisRow)
    (hs : (stock.map (fun r => (r.date, r.ticker))).Nodup)
    (ha : (analysis.map (fun a => a.date)).Nodup) :
    ((UltimateDS.innerJoinOnDate (fun r => r.date) (fun a => a.date) stock analysis).map
      (fun p => (p.1.date, p.1.ticker))).Nodup := by
  induction stock with
  | nil => simp [UltimateDS.innerJoinOnDate]
  | cons r rest ih =>
    simp only [List.map_cons, List.nodup_cons] at hs
    unfold UltimateDS.innerJoinOnDate at *
    simp only [List.flatMap_cons, List.map_append]
    have hmem2 : ∀ x ∈ (rest.flatMap fun l =>
        (analysis.filter fun a => a.date = l.date).map fun a => (l, a)).map
          (fun p : UltimateDS.MetricRow × UltimateDS.AnalysisRow => (p.1.date, p.1.ticker)),
        x ∈ rest.map fun r => (r.date, r.ticker) := by
      intro x hx
      simp only [List.mem_map, List.mem_flatMap] at hx
      obtain ⟨p, ⟨l, hl, a, ha2, rfl⟩, rfl⟩ := hx
      exact List.mem_map.mpr ⟨l, hl, rfl⟩
    refine List.Nodup.append ?_ (ih hs.2) ?_
    · rw [List.map_map]
      exact nodup_const_map _ (r.date, r.ticker) (filter_date_length_le_one ha r.date)
    · intro x hx1 hx2
      have hx1' : x = (r.date, r.ticker) := by
        rw [List.map_map] at hx1
        simp only [List.mem_map, Function.comp] at hx1
        obtain ⟨a, _, rfl⟩ := hx1
        rfl
      rw [hx1'] at hx2
      exact hs.1 (hmem2 _ hx2)

/-- C8 (amended): the ultimate dataset is keyed by `(date, ticker)`
provided the stock table has at most one row per `(date, ticker)` *and*
the analysis table has at most one row per date: then no two distinct
output rows share the same date and ticker.  (Without the second
condition duplicate analysis dates duplicate the key, as the
counterexample shows.) -/
theorem C8_keyed_by_date_ticker (stock : List UltimateDS.MetricRow)
    (analysis : List UltimateDS.AnalysisRow)
    (hs : (stock.map (fun r => (r.date, r.ticker))).Nodup)
    (ha : (analysis.map (fun a => a.date)).Nodup) :
    ((UltimateDS.create_ultimate_dataset stock analysis).map
      (fun r => (r.date, r.ticker))).Nodup := by
  unfold UltimateDS.create_ultimate_dataset
  rw [List.map_map]
  have hperm := (List.perm_insertionSort
    (fun p q : UltimateDS.MetricRow × UltimateDS.AnalysisRow =>
      p.1.date < q.1.date ∨ (p.1.date = q.1.date ∧ UltimateDS.strLe p.1.ticker q.1.ticker))
    (UltimateDS.innerJoinOnDate (fun r => r.date) (fun a => a.date) stock analysis)).map
      ((fun r : UltimateDS.UltimateRow => (r.date, r.ticker)) ∘ UltimateDS.toUltimateRow)
  rw [hperm.nodup_iff]
  exact innerJoin_key_nodup stock analysis hs ha

theorem C8_keyed_by_date_ticker_witness :
    ((UltimateDS.create_ultimate_dataset oneTickerStock
      [{ date := 0, Close_GSPC := some 100, sp500_return := none, sp500_volatility_7d := none
         avg_national_rainfall := some 1, depression_index := some 50
         depression_word_count := some 3, total_articles := some 5
         avg_depression_per_article := some 1, depression_index_category := some "Medium" }]).map
      (fun r => (r.date, r.ticker))).Nodup :=
  C8_keyed_by_date_ticker _ _ (by decide) (by decide)

/-- C5: on the 3-row fixture (ticker `AAA`, closes `[10, 12, 9]` on three
consecutive dates, arbitrary opens/highs/lows), the computed
`daily_return` sequence is `[NaN, 0.2, -0.25]`, and on every row
`price_range = high - low` and
`price_change_pct = (close - open) / open * 100`. -/
theorem C5_fixture_metrics (o1 o2 o3 h1 h2 h3 l1 l2 l3 : ℚ) :
    ((UltimateDS.prepare_stock_data_with_metrics
      [{ ticker := "AAA", date := 0, open_ := o1, high := h1, low := l1, close := 10, volume := 1
         sector := some "s", industry := some "i", company_name := some "c" },
       { ticker := "AAA", date := 1, open_ := o2, high := h2, low := l2, close := 12, volume := 1
         sector := some "s", industry := some "i", company_name := some "c" },
       { ticker := "AAA", date := 2, open_ := o3, high := h3, low := l3, close := 9, volume := 1
         sector := some "s", industry := some "i", company_name := some "c" }]).map
      (fun m => (m.daily_return, m.price_range, m.price_change_pct))) =
    [(none, h1 - l1, (10 - o1) / o1 * 100),
     (some (1/5), h2 - l2, (12 - o2) / o2 * 100),
     (some (-(1/4)), h3 - l3, (9 - o3) / o3 * 100)] := by
  simp [UltimateDS.prepare_stock_data_with_metrics, UltimateDS.dropnaEssential,
    UltimateDS.tickersOf, UltimateDS.tickerGroup, UltimateDS.metricsFor,
    UltimateDS.pctChange, UltimateDS.pctChangeAux, UltimateDS.rollingStd7,
    List.insertionSort, List.orderedInsert, UltimateDS.strLe, List.dedup, List.sum,
    UltimateDS.sampleVar, List.range_succ]
  norm_num

/-! ### Per-ticker group decomposition (C2, C4) -/

theorem filter_flatMap_blocks {β : Type} (tk : β → String) (blocks : String → List β)
    (ts : List String) (t : String) (hnd : ts.Nodup)
    (hblk : ∀ u, ∀ m ∈ blocks u, tk m = u)
    (hnot : t ∉ ts → blocks t = []) :
    (ts.flatMap blocks).filter (fun m => tk m = t) = blocks t := by
  induction ts with
  | nil => simpa using (hnot (by simp)).symm
  | cons u ts ih =>
    simp only [List.flatMap_cons, List.filter_append]
    simp only [List.nodup_cons] at hnd
    by_cases hu : u = t
    · subst hu
      have h1 : (blocks u).filter (fun m => tk m = u) = blocks u :=
        List.filter_eq_self.mpr (fun m hm => by simpa using hblk u m hm)
      have h2 : (ts.flatMap blocks).filter (fun m => tk m = u) = [] := by
        rw [List.filter_eq_nil_iff]
        intro m hm hmt
        rw [List.mem_flatMap] at hm
        obtain ⟨v, hv, hmv⟩ := hm
        have hveq : tk m = v := hblk v m hmv
        have : v = u := by
          rw [← hveq]
          simpa using hmt
        exact hnd.1 (this ▸ hv)
      rw [h1, h2, List.append_nil]
    · have h1 : (blocks u).filter (fun m => tk m = t) = [] := by
        rw [List.filter_eq_nil_iff]
        intro m hm hmt
        exact hu (by rw [← hblk u m hm]; simpa using hmt)
      rw [h1, List.nil_append]
      refine ih hnd.2 ?_
      intro hts
      refine hnot ?_
      simp only [List.mem_cons, not_or]
      exact ⟨fun h => hu h.symm, hts⟩

theorem mem_tickerGroup (data : List UltimateDS.StockRow) (t : String) :
    ∀ r ∈ UltimateDS.tickerGroup data t, r.ticker = t ∧ r ∈ data := by
  intro r hr
  unfold UltimateDS.tickerGroup at hr
  rw [List.mem_insertionSort] at hr
  have := List.mem_filter.mp hr
  exact ⟨by simpa using this.2, this.1⟩

theorem metricsFor_ticker (data g : List UltimateDS.StockRow) (t : String)
    (hg : ∀ r ∈ g, r.ticker = t) :
    ∀ m ∈ UltimateDS.metricsFor data g, m.ticker = t := by
  intro m hm
  simp only [UltimateDS.metricsFor, List.mem_map] at hm
  obtain ⟨rv, hrv, rfl⟩ := hm
  exact hg rv.1 (List.of_mem_zip hrv).1

theorem tickerGroup_eq_nil (data : List UltimateDS.StockRow) (t : String)
    (h : t ∉ data.map (fun r => r.ticker)) : UltimateDS.tickerGroup data t = [] := by
  unfold UltimateDS.tickerGroup
  have hfil : data.filter (fun r => r.ticker = t) = [] := by
    rw [List.filter_eq_nil_iff]
    intro r hr hrt
    exact h (List.mem_map.mpr ⟨r, hr, by simpa using hrt⟩)
  rw [hfil]
  rfl

theorem tickersOf_nodup (data : List UltimateDS.StockRow) :
    (UltimateDS.tickersOf data).Nodup := by
  unfold UltimateDS.tickersOf
  rw [(List.perm_insertionSort _ _).nodup_iff]
  exact List.nodup_dedup _

theorem mem_tickersOf (data : List UltimateDS.StockRow) (t : String) :
    t ∈ UltimateDS.tickersOf data ↔ t ∈ data.map (fun r => r.ticker) := by
  unfold UltimateDS.tickersOf
  rw [List.mem_insertionSort, List.mem_dedup]

theorem filter_prepare (stock_data : List UltimateDS.StockRow) (t : String) :
    (UltimateDS.prepare_stock_data_with_metrics stock_data).filter (fun m => m.ticker = t) =
      UltimateDS.metricsFor (UltimateDS.dropnaEssential stock_data)
        (UltimateDS.tickerGroup (UltimateDS.dropnaEssential stock_data) t) := by
  unfold UltimateDS.prepare_stock_data_with_metrics
  refine filter_flatMap_blocks (fun m => m.ticker)
    (fun u => UltimateDS.metricsFor (UltimateDS.dropnaEssential stock_data)
      (UltimateDS.tickerGroup (UltimateDS.dropnaEssential stock_data) u))
    (UltimateDS.tickersOf (UltimateDS.dropnaEssential stock_data)) t
    (tickersOf_nodup _) ?_ ?_
  · intro u m hm
    exact metricsFor_ticker _ _ u (fun r hr => (mem_tickerGroup _ u r hr).1) m hm
  · intro hts
    show UltimateDS.metricsFor _ (UltimateDS.tickerGroup _ t) = []
    rw [tickerGroup_eq_nil _ t (fun hmem => hts ((mem_tickersOf _ t).mpr hmem))]
    rfl

theorem length_pctChangeAux (prev : ℚ) (l : List ℚ) :
    (UltimateDS.pctChangeAux prev l).length = l.length := by
  induction l generalizing prev with
  | nil => rfl
  | cons c rest ih => simp [UltimateDS.pctChangeAux, ih]

theorem length_pctChange (l : List ℚ) : (UltimateDS.pctChange l).length = l.length := by
  cases l with
  | nil => rfl
  | cons c rest => simp [UltimateDS.pctChange, length_pctChangeAux]

theorem length_rollingStd7 (rets : List (Option ℚ)) :
    (UltimateDS.rollingStd7 rets).length = rets.length := by
  simp [UltimateDS.rollingStd7]

theorem metricsFor_map_pair (data g : List UltimateDS.StockRow) :
    (UltimateDS.metricsFor data g).map (fun m => (m.daily_return, m.volatility_7)) =
      (UltimateDS.pctChange (g.map (fun r => r.close))).zip
        (UltimateDS.rollingStd7 (UltimateDS.pctChange (g.map (fun r => r.close)))) := by
  unfold UltimateDS.metricsFor
  rw [List.map_map]
  have hlen : ((UltimateDS.pctChange (g.map (fun r => r.close))).zip
      (UltimateDS.rollingStd7 (UltimateDS.pctChange (g.map (fun r => r.close))))).length ≤
      g.length := by
    simp [List.length_zip, length_pctChange, length_rollingStd7]
  exact List.map_snd_zip g _ hlen

theorem metricsFor_map_vol (data g : List UltimateDS.StockRow) :
    (UltimateDS.metricsFor data g).map (fun m => m.volatility_7) =
      UltimateDS.rollingStd7 (UltimateDS.pctChange (g.map (fun r => r.close))) := by
  have h1 : (UltimateDS.metricsFor data g).map (fun m => m.volatility_7) =
      ((UltimateDS.metricsFor data g).map (fun m => (m.daily_return, m.volatility_7))).map
        Prod.snd := by
    rw [List.map_map]
    rfl
  rw [h1, metricsFor_map_pair]
  refine List.map_snd_zip _ _ ?_
  simp [length_pctChange, length_rollingStd7]

theorem dropna_filter_comm (tbl : List UltimateDS.StockRow) (t : String) :
    (UltimateDS.dropnaEssential tbl).filter (fun r => r.ticker = t) =
      UltimateDS.dropnaEssential (tbl.filter (fun r => r.ticker = t)) := by
  unfold UltimateDS.dropnaEssential
  rw [List.filter_filter, List.filter_filter]
  exact List.filter_congr (fun r _ => by rw [Bool.and_comm])

/-- C4: the per-ticker metrics are computed independently per ticker:
for any two inputs that agree on all rows of a fixed ticker `t`, the
`daily_return` and 7-day rolling volatility values computed by
`prepare_stock_data_with_metrics` on `t`'s rows are equal, no matter how
the rows of other tickers differ (no cross-ticker leakage). -/
theorem C4_per_ticker_independence (t : String) (tbl1 tbl2 : List UltimateDS.StockRow)
    (h : tbl1.filter (fun r => r.ticker = t) = tbl2.filter (fun r => r.ticker = t)) :
    ((UltimateDS.prepare_stock_data_with_metrics tbl1).filter
        (fun m => m.ticker = t)).map (fun m => (m.daily_return, m.volatility_7)) =
      ((UltimateDS.prepare_stock_data_with_metrics tbl2).filter
        (fun m => m.ticker = t)).map (fun m => (m.daily_return, m.volatility_7)) := by
  rw [filter_prepare, filter_prepare, metricsFor_map_pair, metricsFor_map_pair]
  have hg : UltimateDS.tickerGroup (UltimateDS.dropnaEssential tbl1) t =
      UltimateDS.tickerGroup (UltimateDS.dropnaEssential tbl2) t := by
    unfold UltimateDS.tickerGroup
    rw [dropna_filter_comm, dropna_filter_comm, h]
  rw [hg]

theorem C4_per_ticker_independence_witness :
    ((UltimateDS.prepare_stock_data_with_metrics
      [{ ticker := "AAA", date := 0, open_ := 1, high := 2, low := 1, close := 10, volume := 1
         sector := some "s", industry := some "i", company_name := some "c" },
       { ticker := "ZZZ", date := 0, open_ := 5, high := 6, low := 5, close := 50, volume := 1
         sector := some "s", industry := some "i", company_name := some "z" }]).filter
        (fun m => m.ticker = "AAA")).map (fun m => (m.daily_return, m.volatility_7)) =
      ((UltimateDS.prepare_stock_data_with_metrics
      [{ ticker := "AAA", date := 0, open_ := 1, high := 2, low := 1, close := 10, volume := 1
         sector := some "s", industry := some "i", company_name := some "c" },
       { ticker := "ZZZ", date := 1, open_ := 7, high := 8, low := 7, close := 70, volume := 2
         sector := some "s", industry := some "i", company_name := some "z2" }]).filter
        (fun m => m.ticker = "AAA")).map (fun m => (m.daily_return, m.volatility_7)) :=
  C4_per_ticker_independence "AAA" _ _ (by rfl)

theorem filterMap_id_length (l : List (Option ℚ)) (h : ∀ x ∈ l, x.isSome) :
    (l.filterMap id).length = l.length := by
  induction l with
  | nil => rfl
  | cons x xs ih =>
    have hx := h x (by simp)
    obtain ⟨a, rfl⟩ := Option.isSome_iff_exists.mp hx
    simp [List.filterMap_cons, ih (fun y hy => h y (by simp [hy]))]

theorem pctChangeAux_all_some (prev : ℚ) (l : List ℚ) (hp : prev ≠ 0)
    (hl : ∀ c ∈ l, c ≠ 0) : ∀ v ∈ UltimateDS.pctChangeAux prev l, v.isSome := by
  induction l generalizing prev with
  | nil => simp [UltimateDS.pctChangeAux]
  | cons c rest ih =>
    intro v hv
    simp only [UltimateDS.pctChangeAux, List.mem_cons] at hv
    rcases hv with rfl | hv
    · rw [if_neg hp]
      rfl
    · exact ih c (hl c (by simp)) (fun x hx => hl x (by simp [hx])) v hv

theorem rollingStd7_getElem (rets : List (Option ℚ)) (i : Nat)
    (h : i < (UltimateDS.rollingStd7 rets).length) :
    (UltimateDS.rollingStd7 rets).get ⟨i, h⟩ =
      (if 2 ≤ (((rets.take (i + 1)).drop (i + 1 - 7)).filterMap id).length
       then some (UltimateDS.sampleVar (((rets.take (i + 1)).drop (i + 1 - 7)).filterMap id))
       else none) := by
  simp [UltimateDS.rollingStd7, List.get_eq_getElem, List.getElem_map, List.getElem_range]

theorem vols_get_zero (closes : List ℚ)
    (h : 0 < (UltimateDS.rollingStd7 (UltimateDS.pctChange closes)).length) :
    (UltimateDS.rollingStd7 (UltimateDS.pctChange closes)).get ⟨0, h⟩ = none := by
  cases closes with
  | nil => simp [UltimateDS.pctChange, UltimateDS.rollingStd7] at h
  | cons c cs =>
    rw [rollingStd7_getElem]
    simp [UltimateDS.pctChange]

theorem vols_get_one (closes : List ℚ)
    (h : 1 < (UltimateDS.rollingStd7 (UltimateDS.pctChange closes)).length) :
    (UltimateDS.rollingStd7 (UltimateDS.pctChange closes)).get ⟨1, h⟩ = none := by
  cases closes with
  | nil => simp [UltimateDS.pctChange, UltimateDS.rollingStd7] at h
  | cons c cs =>
    cases cs with
    | nil => simp [UltimateDS.pctChange, UltimateDS.pctChangeAux, UltimateDS.rollingStd7] at h
    | cons c2 cs2 =>
      rw [rollingStd7_getElem]
      by_cases hc : c = 0 <;>
        simp [UltimateDS.pctChange, UltimateDS.pctChangeAux, hc]

theorem vols_get_ge_two (closes : List ℚ) (hnz : ∀ c ∈ closes, c ≠ 0) (i : Nat)
    (h : i < (UltimateDS.rollingStd7 (UltimateDS.pctChange closes)).length) (hi : 2 ≤ i) :
    ((UltimateDS.rollingStd7 (UltimateDS.pctChange closes)).get ⟨i, h⟩).isSome := by
  cases closes with
  | nil => simp [UltimateDS.pctChange, UltimateDS.rollingStd7] at h
  | cons c cs =>
    have hts : ∀ v ∈ UltimateDS.pctChangeAux c cs, v.isSome :=
      pctChangeAux_all_some c cs (hnz c (by simp)) (fun x hx => hnz x (by simp [hx]))
    have hlen : (UltimateDS.pctChangeAux c cs).length = cs.length := length_pctChangeAux c cs
    have hi' : i ≤ cs.length := by
      rw [length_rollingStd7, length_pctChange] at h
      simpa using Nat.lt_succ_iff.mp h
    rw [rollingStd7_getElem]
    set ts := UltimateDS.pctChangeAux c cs with hts_def
    have hwindow : 2 ≤
        ((((UltimateDS.pctChange (c :: cs)).take (i + 1)).drop (i + 1 - 7)).filterMap
          id).length := by
      have htake : (UltimateDS.pctChange (c :: cs)).take (i + 1) = none :: ts.take i := by
        simp [UltimateDS.pctChange]
      by_cases h7 : i ≤ 6
      · have hdrop : i + 1 - 7 = 0 := by omega
        rw [htake, hdrop, List.drop_zero]
        have : (((none : Option ℚ) :: ts.take i).filterMap id).length =
            ((ts.take i).filterMap id).length := by simp
        rw [this, filterMap_id_length _ (fun x hx => hts x (List.take_subset i ts hx))]
        rw [List.length_take]
        omega
      · have hdrop : i + 1 - 7 = (i - 7) + 1 := by omega
        rw [htake, hdrop, List.drop_succ_cons]
        rw [filterMap_id_length _ (fun x hx =>
          hts x (List.take_subset i ts (List.drop_subset _ _ hx)))]
        rw [List.length_drop, List.length_take]
        omega
    rw [if_pos hwindow]
    rfl

theorem leading_none_bound (vols : List (Option ℚ))
    (h0 : ∀ (h : 0 < vols.length), vols.get ⟨0, h⟩ = none)
    (h1 : ∀ (h : 1 < vols.length), vols.get ⟨1, h⟩ = none)
    (h2 : ∀ (i : Nat) (h : i < vols.length), 2 ≤ i → (vols.get ⟨i, h⟩).isSome) :
    ((vols.takeWhile (fun v => v.isNone)).length < 7) ∧
      ∀ (i : Nat) (h : i < vols.length),
        (vols.takeWhile (fun v => v.isNone)).length ≤ i → (vols.get ⟨i, h⟩).isSome := by
  match vols with
  | [] => exact ⟨by simp, fun i h => by simp at h⟩
  | [v] =>
    have hv : v = none := h0 (by simp)
    subst hv
    refine ⟨by simp, ?_⟩
    intro i h hle
    simp at h hle
    omega
  | v0 :: v1 :: rest =>
    have hv0 : v0 = none := h0 (by simp)
    have hv1 : v1 = none := h1 (by simp)
    subst hv0
    subst hv1
    have hrest : ∀ (j : Nat) (hj : j < rest.length), (rest.get ⟨j, hj⟩).isSome := by
      intro j hj
      have hlt : j + 2 < ((none : Option ℚ) :: none :: rest).length := by
        simp
        omega
      have := h2 (j + 2) hlt (by omega)
      simpa using this
    have htw : (((none : Option ℚ) :: none :: rest).takeWhile (fun v => v.isNone)).length = 2 := by
      cases rest with
      | nil => rfl
      | cons r rs =>
        have hr : r.isSome := hrest 0 (by simp)
        obtain ⟨a, rfl⟩ := Option.isSome_iff_exists.mp hr
        simp [List.takeWhile]
    rw [htw]
    refine ⟨by omega, ?_⟩
    intro i h hle
    exact h2 i h hle

/-- C2: for every input stock table and ticker, the 7-day rolling
volatility column computed by `prepare_stock_data_with_metrics`
(`volatility_7`, via `groupby('ticker')` and `rolling(window=7)`) is NaN
on strictly fewer than 7 leading rows of that ticker's group, and is
numeric on all later rows of the group, given numeric (nonzero) close
prices for that ticker. -/
theorem C2_volatility_leading_rows (stock_data : List UltimateDS.StockRow) (t : String)
    (hnz : ∀ r ∈ stock_data, r.ticker = t → r.close ≠ 0) :
    (((UltimateDS.volatilityColumn stock_data t).takeWhile
        (fun v => v.isNone)).length < 7) ∧
      ∀ (i : Nat) (h : i < (UltimateDS.volatilityColumn stock_data t).length),
        (((UltimateDS.volatilityColumn stock_data t).takeWhile
            (fun v => v.isNone)).length ≤ i) →
          ((UltimateDS.volatilityColumn stock_data t).get ⟨i, h⟩).isSome := by
  have hvols2 : UltimateDS.volatilityColumn stock_data t =
      UltimateDS.rollingStd7 (UltimateDS.pctChange
        ((UltimateDS.tickerGroup (UltimateDS.dropnaEssential stock_data) t).map
          (fun r => r.close))) := by
    unfold UltimateDS.volatilityColumn
    rw [filter_prepare, metricsFor_map_vol]
  have hclose : ∀ c ∈ (UltimateDS.tickerGroup (UltimateDS.dropnaEssential stock_data) t).map
      (fun r => r.close), c ≠ 0 := by
    intro c hc
    rw [List.mem_map] at hc
    obtain ⟨r, hr, rfl⟩ := hc
    obtain ⟨hrt, hrd⟩ := mem_tickerGroup _ t r hr
    have hrm : r ∈ stock_data := List.mem_of_mem_filter hrd
    exact hnz r hrm hrt
  rw [hvols2]
  exact leading_none_bound _
    (vols_get_zero ((UltimateDS.tickerGroup (UltimateDS.dropnaEssential stock_data) t).map
      (fun r => r.close)))
    (vols_get_one _)
    (fun i h hi => vols_get_ge_two _ hclose i h hi)

theorem C2_volatility_leading_rows_witness :
    (((UltimateDS.volatilityColumn
      [{ ticker := "AAA", date := 0, open_ := 8, high := 11, low := 8, close := 10, volume := 1
         sector := some "s", industry := some "i", company_name := some "c" },
       { ticker := "AAA", date := 1, open_ := 10, high := 13, low := 10, close := 12, volume := 1
         sector := some "s", industry := some "i", company_name := some "c" },
       { ticker := "AAA", date := 2, open_ := 12, high := 12, low := 9, close := 9, volume := 1
         sector := some "s", industry := some "i", company_name := some "c" }] "AAA").takeWhile
        (fun v => v.isNone)).length < 7) :=
  (C2_volatility_leading_rows _ "AAA" (by intro r hr ht; fin_cases hr <;> norm_num)).1
